import Mathlib

/-!
Shallow embedding of the native-memory-tracking malloc instrumentation
(src/hotspot/share/services/mallocTracker.cpp) and proofs about it.

Addresses and machine words are modelled as Nat.  The platform word size is
threaded through as a flag lp64, true on 64-bit targets, matching the
LP64 and NOT_LP64 conditionals of the source.  External collaborators
(the malloc site table, the diagnostic stream, the global MemTracker level)
are modelled by explicit inputs and by events or requests in the results.
-/

namespace NMT

/-- Tracking levels of the state machine, in the order used by the source
comparisons: off, minimal, summary, detail (nmtCommon.hpp ordering). -/
inductive NMT_TrackingLevel where
  | off
  | minimal
  | summary
  | detail
deriving DecidableEq, Repr

/-- Numeric rank of a level, reflecting how the C enum compares with <=. -/
def levelIdx : NMT_TrackingLevel → Nat
  | .off => 0
  | .minimal => 1
  | .summary => 2
  | .detail => 3

/-- Modelled from the spec: the kilobyte constant K used as the low-address
threshold in check_block_integrity; K is declared in globalDefinitions.hpp,
which is outside the provided sources, with the conventional value 1024. -/
def K : Nat := 1024

/-- Modelled from the spec: the size of the MallocHeader record that is
prepended to every tracked block (the header layout lives in
mallocTracker.hpp, outside the provided sources).  The user pointer is the
raw block plus this many bytes, and the free path subtracts the same
amount; the value is the documented default of 16 bytes. -/
def sizeofMallocHeader : Nat := 16

/-- Modelled from the spec: the alive pattern of the header canary (a policy
constant of mallocTracker.hpp, outside the provided sources); the alive and
dead patterns are distinct fixed values. -/
def header_canary_life_mark : Nat := 0xE99E

/-- Modelled from the spec: the dead pattern of the header canary. -/
def header_canary_dead_mark : Nat := 0xD99D

/-- Modelled from the spec: the alive pattern of the alternate canary kept
on 32-bit targets only. -/
def header_alt_canary_life_mark : Nat := 0xE98E

/-- Modelled from the spec: the dead pattern of the alternate canary. -/
def header_alt_canary_dead_mark : Nat := 0xD98D

/-- Modelled from the spec: the alive pattern of the single footer guard
byte placed after the payload. -/
def footer_canary_life_mark : Nat := 0x1A

/-- Modelled from the spec: the dead pattern of the footer guard byte. -/
def footer_canary_dead_mark : Nat := 0x1B

/-- Modelled from the spec: the max-reasonable ceiling on a stored block
size; a stored size at or above it is treated as corruption.  A policy
constant (256 GB on 64-bit targets, 3500 MB on 32-bit ones). -/
def max_reasonable_malloc_size (lp64 : Bool) : Nat :=
  if lp64 then 256 * 1024 * 1024 * 1024 else 3500 * 1024 * 1024

/-- Modelled from the spec: the state of one MallocHeader, the per-block
metadata record placed immediately before the user pointer, together with
the guard byte placed after the payload.  The field layout is declared in
mallocTracker.hpp, outside the provided sources; addr is the numeric
address of the header itself. -/
structure MallocHeader where
  addr : Nat
  size : Nat
  flags : Nat
  canary : Nat
  alt_canary : Nat
  footer : Nat
  bucket_idx : Nat
  pos_idx : Nat
deriving DecidableEq, Repr

/-- The distinct fatal outcomes of MallocHeader::check_block_integrity, one
per failed check, in source order. -/
inductive IntegrityError where
  | invalidAddress
  | unaligned
  | headerCanaryBroken
  | altCanaryBroken
  | invalidSize
  | footerCanaryBroken
deriving DecidableEq, Repr

/-- MallocHeader::check_block_integrity (mallocTracker.cpp lines 154-205).
Returns the fatal outcome of the first failing check, or none when the
block passes every check.  The alignment test is against sizeof(uint64_t),
eight bytes, on every target, per the source comment that this is the bare
minimum malloc guarantees even on 32-bit platforms; the alternate-canary
check runs only on 32-bit targets (ifndef LP64). -/
def check_block_integrity (lp64 : Bool) (h : MallocHeader) : Option IntegrityError :=
  if h.addr < K then some .invalidAddress
  else if ¬ (h.addr % 8 = 0) then some .unaligned
  else if ¬ (h.canary = header_canary_life_mark) then some .headerCanaryBroken
  else if ¬ lp64 ∧ ¬ (h.alt_canary = header_alt_canary_life_mark) then some .altCanaryBroken
  else if max_reasonable_malloc_size lp64 ≤ h.size then some .invalidSize
  else if ¬ (h.footer = footer_canary_life_mark) then some .footerCanaryBroken
  else none

/-- A sequential checklist: each entry pairs the failure condition of one
check with the fatal outcome raised when it holds; the first entry whose
condition holds wins and no later entry is consulted. -/
def firstFailing : List (Bool × IntegrityError) → Option IntegrityError
  | [] => none
  | (c, e) :: rest => if c then some e else firstFailing rest

/-- The checklist of the claimed integrity protocol, in the claimed order,
with the alignment requirement a parameter so that both the claimed
8-or-16 variant and the source variant can be expressed. -/
def integrityChecklist (align : Nat) (lp64 : Bool) (h : MallocHeader) :
    List (Bool × IntegrityError) :=
  [(decide (h.addr < K), .invalidAddress),
   (decide (¬ (h.addr % align = 0)), .unaligned),
   (decide (¬ (h.canary = header_canary_life_mark)), .headerCanaryBroken)] ++
  (if lp64 then [] else
   [(decide (¬ (h.alt_canary = header_alt_canary_life_mark)), .altCanaryBroken)]) ++
  [(decide (max_reasonable_malloc_size lp64 ≤ h.size), .invalidSize),
   (decide (¬ (h.footer = footer_canary_life_mark)), .footerCanaryBroken)]

/-- The minimum alignment the claim attributes to the check: 8 bytes on
32-bit targets and 16 bytes on 64-bit ones (two machine words). -/
def claimedMinAlignment (lp64 : Bool) : Nat := if lp64 then 16 else 8

/-- MallocHeader::mark_block_as_dead (mallocTracker.cpp lines 109-113):
overwrite the header canary, on 32-bit targets the alternate canary too
(NOT_LP64), and the footer byte with the dead patterns. -/
def mark_block_as_dead (lp64 : Bool) (h : MallocHeader) : MallocHeader :=
  { h with canary := header_canary_dead_mark,
           alt_canary := if lp64 then h.alt_canary else header_alt_canary_dead_mark,
           footer := footer_canary_dead_mark }

/-- The calls release makes on its collaborators, in order: the summary
counters for the payload and for the header overhead, the site-table
decrement, and the dead marking of the block. -/
inductive ReleaseEvent where
  | summaryRecordFree (size flags : Nat)
  | summaryRecordFreeMallocHeader (size : Nat)
  | siteDeallocationAt (size bucket_idx pos_idx : Nat)
  | markBlockAsDead
deriving DecidableEq, Repr

/-- MallocHeader::release (mallocTracker.cpp lines 115-128), with the
ambient MemTracker tracking level passed in.  A level at or below minimal
returns at once with no effect.  Otherwise the integrity check runs first;
a failure is the fatal outcome and nothing else happens.  On success the
result pairs the block as left in memory (marked dead) with the ordered
list of collaborator calls made: summary record_free of the payload,
summary record_free_malloc_header of the header overhead, the site-table
deallocation_at only at detail level, and the dead marking last. -/
def release (lp64 : Bool) (level : NMT_TrackingLevel) (h : MallocHeader) :
    Except IntegrityError (MallocHeader × List ReleaseEvent) :=
  if levelIdx level ≤ levelIdx .minimal then .ok (h, [])
  else
    match check_block_integrity lp64 h with
    | some e => .error e
    | none =>
        .ok (mark_block_as_dead lp64 h,
          [.summaryRecordFree h.size h.flags,
           .summaryRecordFreeMallocHeader sizeofMallocHeader] ++
          (if level = .detail
           then [.siteDeallocationAt h.size h.bucket_idx h.pos_idx] else []) ++
          [.markBlockAsDead])

/-- One category counter: live count, live bytes, and the two high-water
marks.  Declared in mallocTracker.hpp; the update operations on it are
embedded below. -/
structure MemoryCounter where
  count : Nat
  size : Nat
  peak_count : Nat
  peak_size : Nat
deriving DecidableEq, Repr

/-- A fresh MemoryCounter, all fields zero. -/
def MemoryCounter.zero : MemoryCounter :=
  { count := 0, size := 0, peak_count := 0, peak_size := 0 }

/-- Sequential semantics of Atomic::cmpxchg on one cell: the result pairs
the new cell value with the value observed (the old value is returned
whether or not the exchange happened). -/
def cmpxchg (mem expected desired : Nat) : Nat × Nat :=
  if mem = expected then (desired, mem) else (mem, mem)

/-- The retry loop shared by MemoryCounter::update_peak_count and
update_peak_size (mallocTracker.cpp lines 37-55), run sequentially: while
the observed peak is below the target, attempt a cmpxchg from the observed
peak to the target, and on a failed exchange adopt the value the cell held.
The fuel argument bounds the iterations; sequentially three suffice, which
the lemmas below establish for any larger fuel. -/
def update_peak_loop : Nat → Nat → Nat → Nat → Nat
  | 0, mem, _, _ => mem
  | fuel + 1, mem, observed, target =>
      if observed < target then
        let r := cmpxchg mem observed target
        update_peak_loop fuel r.1 (if ¬ (r.2 = observed) then r.2 else observed) target
      else mem

/-- MemoryCounter::update_peak_count and update_peak_size as one function
on the peak cell: run the retry loop starting from the loaded peak. -/
def update_peak (peak target : Nat) : Nat := update_peak_loop 3 peak peak target

/-- Modelled from the spec: MemoryCounter::record_allocate (declared in
mallocTracker.hpp, outside the provided sources): increment the count,
add the allocated bytes, then raise each peak with the retry loop. -/
def MemoryCounter.record_allocate (c : MemoryCounter) (sz : Nat) : MemoryCounter :=
  let cnt := c.count + 1
  let s := c.size + sz
  { count := cnt, size := s,
    peak_count := update_peak c.peak_count cnt,
    peak_size := update_peak c.peak_size s }

/-- Modelled from the spec: MemoryCounter::record_free (declared in
mallocTracker.hpp, outside the provided sources): decrement the count and
subtract the freed bytes; no peak interaction.  The contract forbids
driving a counter below zero, so Nat subtraction is exact on every
permitted call. -/
def MemoryCounter.record_free (c : MemoryCounter) (sz : Nat) : MemoryCounter :=
  { c with count := c.count - 1, size := c.size - sz }

/-- Modelled from the spec: the number of memory categories
(mt_number_of_types), fixed and known at compile time; the enumeration
lives in memflags headers outside the provided sources. -/
def mt_number_of_types : Nat := 22

/-- Modelled from the spec: NMTUtil::flag_to_index(mtChunk), the array
index of the generic chunk category. -/
def chunk_index : Fin mt_number_of_types := ⟨12, by decide⟩

/-- Per-category slot of the snapshot: one counter for malloc bytes and one
for arena bytes (declared in mallocTracker.hpp). -/
structure MallocMemory where
  malloc : MemoryCounter
  arena : MemoryCounter
deriving DecidableEq, Repr

/-- The snapshot: one MallocMemory per category plus the counter of the
tracking headers own overhead (declared in mallocTracker.hpp). -/
structure MallocMemorySnapshot where
  malloc : Fin mt_number_of_types → MallocMemory
  tracking_header : MemoryCounter

/-- MallocMemorySnapshot::total_count (mallocTracker.cpp lines 67-73): the
loop summing malloc_count over every category index. -/
def total_count (s : MallocMemorySnapshot) : Nat :=
  (List.finRange mt_number_of_types).foldl
    (fun amount index => amount + (s.malloc index).malloc.count) 0

/-- MallocMemorySnapshot::total_arena (mallocTracker.cpp lines 86-92): the
loop summing arena_size over every category index. -/
def total_arena (s : MallocMemorySnapshot) : Nat :=
  (List.finRange mt_number_of_types).foldl
    (fun amount index => amount + (s.malloc index).arena.size) 0

/-- MallocMemorySnapshot::total (mallocTracker.cpp lines 76-83): the loop
summing malloc_size over every category index, then adding the tracking
header size and the arena total. -/
def total (s : MallocMemorySnapshot) : Nat :=
  (List.finRange mt_number_of_types).foldl
    (fun amount index => amount + (s.malloc index).malloc.size) 0
  + (s.tracking_header.size + total_arena s)

/-- MallocMemorySnapshot::make_adjustment (mallocTracker.cpp lines 96-100):
compute the arena total and record_free exactly that amount, once, on the
chunk categorys malloc counter. -/
def make_adjustment (s : MallocMemorySnapshot) : MallocMemorySnapshot :=
  let arena_size := total_arena s
  { s with malloc := fun i =>
      if i = chunk_index
      then { s.malloc i with malloc := (s.malloc i).malloc.record_free arena_size }
      else s.malloc i }

/-- MallocHeader::record_malloc_site (mallocTracker.cpp lines 207-218),
with the outcome of the external MallocSiteTable::allocation_at call passed
in as tableResult (the bucket and position indices on success, none on
exhaustion or overflow).  The result gives the returned flag, the indices
written through the out-parameters when registration succeeded, and the
level the tracker is asked to transition to when it failed. -/
def record_malloc_site (tableResult : Option (Nat × Nat)) :
    Bool × Option (Nat × Nat) × Option NMT_TrackingLevel :=
  match tableResult with
  | some bp => (true, some bp, none)
  | none => (false, none, some .summary)

/-- Modelled from the spec: the MallocHeader constructor (declared in
mallocTracker.hpp, outside the provided sources).  It stores size and
category, sets every canary to its alive pattern, and at detail level asks
record_malloc_site to register the site: on success the two returned
indices are stored, on failure the header keeps no site reference (indices
stay zero) and the requested downgrade to summary is propagated. -/
def mkMallocHeader (lp64 : Bool) (addr size flags : Nat)
    (level : NMT_TrackingLevel) (tableResult : Option (Nat × Nat)) :
    MallocHeader × Option NMT_TrackingLevel :=
  let base : MallocHeader :=
    { addr := addr, size := size, flags := flags,
      canary := header_canary_life_mark,
      alt_canary := if lp64 then 0 else header_alt_canary_life_mark,
      footer := footer_canary_life_mark,
      bucket_idx := 0, pos_idx := 0 }
  if level = .detail then
    match record_malloc_site tableResult with
    | (true, some bp, req) => ({ base with bucket_idx := bp.1, pos_idx := bp.2 }, req)
    | (_, _, req) => (base, req)
  else (base, none)

/-- MallocTracker::record_malloc (mallocTracker.cpp lines 248-276), with
the site-table outcome passed in.  A null raw block returns none.
Otherwise the header is constructed in place at the start of the raw
block, and the result carries the user pointer malloc_base plus
sizeof(MallocHeader), the constructed header, and any tracking-level
downgrade the construction requested. -/
def record_malloc (lp64 : Bool) (malloc_base size flags : Nat)
    (level : NMT_TrackingLevel) (tableResult : Option (Nat × Nat)) :
    Option (Nat × MallocHeader × Option NMT_TrackingLevel) :=
  if malloc_base = 0 then none
  else
    let hr := mkMallocHeader lp64 malloc_base size flags level tableResult
    some (malloc_base + sizeofMallocHeader, hr.1, hr.2)

/-- MallocTracker::record_free (mallocTracker.cpp lines 278-283), address
part: the header sits sizeof(MallocHeader) bytes before the user pointer
and its address is the raw block address the function returns. -/
def record_free_addr (memblock : Nat) : Nat := memblock - sizeofMallocHeader

/-- MallocTracker::transition (mallocTracker.cpp lines 235-245): the
returned flag paired with whether MallocSiteTable::shutdown was invoked.
The asserted preconditions (f not off, f not minimal, t not off, and at
detail only summary or minimal targets) are hypotheses of the theorems. -/
def transition (f t : NMT_TrackingLevel) : Bool × Bool :=
  if f = .detail then (true, true) else (true, false)

/-- One call on a MemoryCounter, for reasoning about arbitrary sequences of
allocations and frees. -/
inductive CounterOp where
  | allocate (sz : Nat)
  | free (sz : Nat)
deriving DecidableEq, Repr

/-- Apply one CounterOp to a counter. -/
def applyCounterOp (c : MemoryCounter) : CounterOp → MemoryCounter
  | .allocate sz => c.record_allocate sz
  | .free sz => c.record_free sz

/-- A sample live header used to evaluate the definitions on a concrete
input: plausible aligned address, intact canaries, modest size. -/
def liveHeader : MallocHeader :=
  { addr := 1024, size := 100, flags := 3,
    canary := header_canary_life_mark,
    alt_canary := header_alt_canary_life_mark,
    footer := footer_canary_life_mark,
    bucket_idx := 5, pos_idx := 7 }

/-- A sample header whose header canary has been overwritten. -/
def corruptHeader : MallocHeader := { liveHeader with canary := 0 }

/-- A sample header at a low address, with arbitrary field contents. -/
def lowHeaderA : MallocHeader :=
  { addr := 1023, size := 0, flags := 0, canary := 0, alt_canary := 0,
    footer := 0, bucket_idx := 0, pos_idx := 0 }

/-- A second sample header at the same low address with different field
contents, to exhibit that the verdict reads no field. -/
def lowHeaderB : MallocHeader :=
  { addr := 1023, size := 999, flags := 1, canary := 77, alt_canary := 88,
    footer := 99, bucket_idx := 1, pos_idx := 2 }

/-- A sample snapshot: every category holds two live blocks of 100 bytes
total and one arena byte, and the tracking-header counter holds 32 bytes. -/
def sampleSnapshot : MallocMemorySnapshot :=
  { malloc := fun _ =>
      { malloc := { count := 2, size := 100, peak_count := 2, peak_size := 100 },
        arena := { count := 1, size := 1, peak_count := 1, peak_size := 1 } },
    tracking_header := { count := 2, size := 32, peak_count := 2, peak_size := 32 } }

/-! ### Helper lemmas -/

theorem foldl_add_eq {α : Type} (f : α → Nat) :
    ∀ (l : List α) (init : Nat),
      l.foldl (fun a x => a + f x) init = init + (l.map f).sum
  | [], init => by simp
  | x :: xs, init => by
      simp only [List.foldl_cons, List.map_cons, List.sum_cons,
        foldl_add_eq f xs]
      omega

theorem update_peak_loop_fuel (fuel p t : Nat) :
    update_peak_loop (fuel + 3) p p t = max p t := by
  rcases Nat.lt_or_ge p t with hlt | hge
  · have hne : ¬ (t = p) := Nat.ne_of_gt hlt
    have h1 : update_peak_loop (fuel + 3) p p t = update_peak_loop (fuel + 2) t p t := by
      simp [show fuel + 3 = (fuel + 2) + 1 from rfl, update_peak_loop, cmpxchg, hlt]
    have h2 : update_peak_loop (fuel + 2) t p t = update_peak_loop (fuel + 1) t t t := by
      simp [show fuel + 2 = (fuel + 1) + 1 from rfl, update_peak_loop, cmpxchg, hlt, hne]
    have h3 : update_peak_loop (fuel + 1) t t t = t := by
      simp [update_peak_loop]
    rw [h1, h2, h3, Nat.max_eq_right (Nat.le_of_lt hlt)]
  · have hnlt : ¬ (p < t) := Nat.not_lt_of_ge hge
    have h1 : update_peak_loop (fuel + 3) p p t = p := by
      simp [show fuel + 3 = (fuel + 2) + 1 from rfl, update_peak_loop, hnlt]
    rw [h1, Nat.max_eq_left hge]

theorem update_peak_eq_max (p t : Nat) : update_peak p t = max p t :=
  update_peak_loop_fuel 0 p t

/-! ### Claim theorems -/

/-- C1, counterexample: the claim attributes to the alignment check the
allocator minimum of 16 bytes on 64-bit targets, but the source tests
alignment to sizeof(uint64_t), eight bytes, on every target.  A header at
address 1032 (8-aligned, not 16-aligned) with intact canaries, plausible
size and intact footer passes every source check, yet the claimed
checklist reports it unaligned. -/
theorem c1_counterexample :
    check_block_integrity true
      { addr := 1032, size := 0, flags := 0, canary := 0xE99E, alt_canary := 0,
        footer := 0x1A, bucket_idx := 0, pos_idx := 0 }
    ≠ firstFailing (integrityChecklist (claimedMinAlignment true) true
      { addr := 1032, size := 0, flags := 0, canary := 0xE99E, alt_canary := 0,
        footer := 0x1A, bucket_idx := 0, pos_idx := 0 }) := by
  decide

/-- C1, amended: check_block_integrity runs its checks sequentially in the
fixed order low-address guard, 8-byte alignment (the malloc minimum on
every target, not 8-or-16 by word size), header canary, alternate canary
on 32-bit targets only, max-reasonable size ceiling, footer guard byte;
the first failing check yields its own distinct fatal outcome and no later
check is consulted. -/
theorem c1_check_sequence (lp64 : Bool) (h : MallocHeader) :
    check_block_integrity lp64 h = firstFailing (integrityChecklist 8 lp64 h)
    ∧ ((integrityChecklist 8 lp64 h).map Prod.snd).Nodup := by
  constructor
  · unfold check_block_integrity integrityChecklist
    cases lp64 <;> split_ifs <;> simp_all [firstFailing] <;>
      (repeat rw [if_neg (by omega)])
  · cases lp64 <;> simp [integrityChecklist]

/-- C2: release is a no-op at a tracking level at or below minimal
(tracking shut down); at an active level the integrity check runs first
and a failure is the fatal outcome with no collaborator call made, so no
statistic is touched; on a passing check the first two calls update the
summary counters for the payload bytes and the header-overhead bytes, a
site-table decrement occurs exactly at detail level (with this blocks
size and site indices), and the dead marking of the block comes last. -/
theorem c2_release_order (lp64 : Bool) (level : NMT_TrackingLevel) (h : MallocHeader) :
    (levelIdx level ≤ levelIdx .minimal → release lp64 level h = .ok (h, [])) ∧
    (levelIdx .minimal < levelIdx level →
      (∀ e, check_block_integrity lp64 h = some e → release lp64 level h = .error e) ∧
      (check_block_integrity lp64 h = none →
        ∃ evs, release lp64 level h = .ok (mark_block_as_dead lp64 h, evs)
          ∧ evs.take 2 = [.summaryRecordFree h.size h.flags,
                          .summaryRecordFreeMallocHeader sizeofMallocHeader]
          ∧ ((ReleaseEvent.siteDeallocationAt h.size h.bucket_idx h.pos_idx ∈ evs)
              ↔ level = .detail)
          ∧ evs.getLast? = some .markBlockAsDead)) := by
  refine ⟨fun hmin => ?_, fun hact => ⟨fun e he => ?_, fun hok => ?_⟩⟩
  · simp [release, hmin]
  · simp [release, Nat.not_le_of_lt hact, he]
  · refine ⟨[.summaryRecordFree h.size h.flags,
             .summaryRecordFreeMallocHeader sizeofMallocHeader] ++
            (if level = .detail
             then [.siteDeallocationAt h.size h.bucket_idx h.pos_idx] else []) ++
            [.markBlockAsDead], ?_, ?_, ?_, ?_⟩
    · simp [release, Nat.not_le_of_lt hact, hok]
    · cases level <;> rfl
    · cases level <;> simp
    · cases level <;> rfl

/-- C3: for a non-null raw block, record_malloc returns the user pointer
at rawBlock plus sizeof(MallocHeader), and record_free maps that user
pointer back to the original raw block address (round-trip identity); for
a null raw block, record_malloc returns null. -/
theorem c3_roundtrip (lp64 : Bool) (base size flags : Nat)
    (level : NMT_TrackingLevel) (tableResult : Option (Nat × Nat)) :
    (base = 0 → record_malloc lp64 base size flags level tableResult = none) ∧
    (base ≠ 0 → ∃ h req,
        record_malloc lp64 base size flags level tableResult
          = some (base + sizeofMallocHeader, h, req)
      ∧ record_free_addr (base + sizeofMallocHeader) = base) := by
  constructor
  · intro h0; simp [record_malloc, h0]
  · intro h0
    refine ⟨(mkMallocHeader lp64 base size flags level tableResult).1,
            (mkMallocHeader lp64 base size flags level tableResult).2, ?_, ?_⟩
    · simp [record_malloc, h0]
    · simp [record_free_addr]

/-- C4: a successful release leaves the block exactly as marked dead by
mark_block_as_dead — header canary (and on 32-bit the alternate canary)
and footer byte overwritten with the dead patterns — and the marking event
is part of every successful free; a second free of the same block is then
caught by the integrity check as a header-canary mismatch and is fatal,
never treated as a live block. -/
theorem c4_double_free_detected (lp64 : Bool) (level : NMT_TrackingLevel)
    (h h' : MallocHeader) (evs : List ReleaseEvent)
    (hact : levelIdx .minimal < levelIdx level)
    (hrel : release lp64 level h = .ok (h', evs)) :
    h' = mark_block_as_dead lp64 h
    ∧ ReleaseEvent.markBlockAsDead ∈ evs
    ∧ h'.canary = header_canary_dead_mark
    ∧ (¬ lp64 = true → h'.alt_canary = header_alt_canary_dead_mark)
    ∧ h'.footer = footer_canary_dead_mark
    ∧ check_block_integrity lp64 h' = some .headerCanaryBroken
    ∧ release lp64 level h' = .error .headerCanaryBroken := by
  have hnle : ¬ (levelIdx level ≤ levelIdx NMT_TrackingLevel.minimal) :=
    Nat.not_le_of_lt hact
  rcases hchk : check_block_integrity lp64 h with _ | e
  case none =>
    simp only [release] at hrel
    rw [if_neg hnle, hchk] at hrel
    have hpair : (mark_block_as_dead lp64 h,
        [ReleaseEvent.summaryRecordFree h.size h.flags,
         ReleaseEvent.summaryRecordFreeMallocHeader sizeofMallocHeader] ++
        (if level = .detail
         then [ReleaseEvent.siteDeallocationAt h.size h.bucket_idx h.pos_idx] else []) ++
        [ReleaseEvent.markBlockAsDead]) = (h', evs) := Except.ok.inj hrel
    have hh' : h' = mark_block_as_dead lp64 h := (Prod.ext_iff.mp hpair).1.symm
    have hevs : evs = _ := (Prod.ext_iff.mp hpair).2.symm
    have hdead : check_block_integrity lp64 h' = some .headerCanaryBroken := by
      simp only [check_block_integrity] at hchk
      rw [hh']
      simp only [check_block_integrity]
      by_cases h1 : h.addr < K
      · simp [h1] at hchk
      · by_cases h2 : h.addr % 8 = 0
        · simp [mark_block_as_dead, h1, h2, header_canary_dead_mark,
            header_canary_life_mark]
        · simp [h1, h2] at hchk
    refine ⟨hh', ?_, ?_, ?_, ?_, hdead, ?_⟩
    · rw [hevs]; cases level <;> simp
    · rw [hh']; rfl
    · intro hn; rw [hh']; simp [mark_block_as_dead, hn]
    · rw [hh']; rfl
    · simp only [release]
      rw [if_neg hnle, hdead]
  case some =>
    exfalso
    simp only [release] at hrel
    rw [if_neg hnle, hchk] at hrel
    exact Except.noConfusion hrel

/-- C5: for every snapshot state, total equals the sum over all categories
of the category malloc size, plus the tracking-header overhead bytes, plus
the arena total, which is itself the sum over all categories of the arena
size. -/
theorem c5_total_formula (s : MallocMemorySnapshot) :
    total s = (∑ i : Fin mt_number_of_types, (s.malloc i).malloc.size)
              + s.tracking_header.size + total_arena s
    ∧ total_arena s = ∑ i : Fin mt_number_of_types, (s.malloc i).arena.size := by
  have harena : total_arena s = ∑ i : Fin mt_number_of_types, (s.malloc i).arena.size := by
    unfold total_arena
    rw [foldl_add_eq (fun i : Fin mt_number_of_types => (s.malloc i).arena.size),
      Fin.sum_univ_def]
    simp
  refine ⟨?_, harena⟩
  unfold total
  rw [foldl_add_eq (fun i : Fin mt_number_of_types => (s.malloc i).malloc.size),
    Fin.sum_univ_def]
  omega

/-- C6: when site registration fails at detail level, record_malloc_site
returns failure and requests the downgrade from detail to summary;
record_malloc nevertheless succeeds on a non-null raw block, returning the
usual user pointer, with a header carrying no site reference (both indices
zero) and the downgrade request attached. -/
theorem c6_site_failure_degrades (lp64 : Bool) (base size flags : Nat)
    (hbase : ¬ (base = 0)) :
    record_malloc_site none = (false, none, some .summary)
    ∧ ∃ h, record_malloc lp64 base size flags .detail none
        = some (base + sizeofMallocHeader, h, some .summary)
      ∧ h.bucket_idx = 0 ∧ h.pos_idx = 0 := by
  refine ⟨rfl,
    ⟨{ addr := base, size := size, flags := flags,
       canary := header_canary_life_mark,
       alt_canary := if lp64 then 0 else header_alt_canary_life_mark,
       footer := footer_canary_life_mark, bucket_idx := 0, pos_idx := 0 },
     ?_, rfl, rfl⟩⟩
  simp [record_malloc, hbase, mkMallocHeader, record_malloc_site]

/-- C7: the peak update is the compare-and-swap retry loop and computes the
maximum of the old peak and the target; record_free touches neither peak;
and along any sequence of record_allocate and record_free calls from a
state satisfying them, the invariants peak_count at least count and
peak_size at least size are maintained. -/
theorem c7_peak_invariant (c : MemoryCounter) (ops : List CounterOp)
    (hc : c.count ≤ c.peak_count) (hs : c.size ≤ c.peak_size) :
    (∀ p t, update_peak p t = max p t)
    ∧ (∀ d sz, (MemoryCounter.record_free d sz).peak_count = d.peak_count
             ∧ (MemoryCounter.record_free d sz).peak_size = d.peak_size)
    ∧ ((ops.foldl applyCounterOp c).count ≤ (ops.foldl applyCounterOp c).peak_count
       ∧ (ops.foldl applyCounterOp c).size ≤ (ops.foldl applyCounterOp c).peak_size) := by
  refine ⟨update_peak_eq_max, fun d sz => ⟨rfl, rfl⟩, ?_⟩
  induction ops generalizing c with
  | nil => exact ⟨hc, hs⟩
  | cons op rest ih =>
      rw [List.foldl_cons]
      have h1 : (applyCounterOp c op).count ≤ (applyCounterOp c op).peak_count := by
        cases op with
        | allocate sz =>
            simp only [applyCounterOp, MemoryCounter.record_allocate, update_peak_eq_max]
            omega
        | free sz =>
            simp only [applyCounterOp, MemoryCounter.record_free]
            omega
      have h2 : (applyCounterOp c op).size ≤ (applyCounterOp c op).peak_size := by
        cases op with
        | allocate sz =>
            simp only [applyCounterOp, MemoryCounter.record_allocate, update_peak_eq_max]
            omega
        | free sz =>
            simp only [applyCounterOp, MemoryCounter.record_free]
            omega
      exact ih _ h1 h2

/-- C8: make_adjustment subtracts the current arena total, exactly once,
from the generic chunk categorys malloc counter via record_free, leaving
every other category, the chunk arena counter, and the tracking-header
counter untouched; under the no-underflow contract the chunk bytes
afterwards are exactly the old bytes minus the arena-owned bytes. -/
theorem c8_make_adjustment (s : MallocMemorySnapshot)
    (harena : total_arena s ≤ (s.malloc chunk_index).malloc.size) :
    ((make_adjustment s).malloc chunk_index).malloc.size + total_arena s
        = (s.malloc chunk_index).malloc.size
    ∧ ((make_adjustment s).malloc chunk_index).malloc
        = (s.malloc chunk_index).malloc.record_free (total_arena s)
    ∧ (∀ i, ¬ (i = chunk_index) → (make_adjustment s).malloc i = s.malloc i)
    ∧ ((make_adjustment s).malloc chunk_index).arena = (s.malloc chunk_index).arena
    ∧ (make_adjustment s).tracking_header = s.tracking_header := by
  refine ⟨?_, ?_, ?_, ?_, rfl⟩
  · simp [make_adjustment, MemoryCounter.record_free]
    omega
  · simp [make_adjustment]
  · intro i hi
    simp [make_adjustment, hi]
  · simp [make_adjustment]

/-- C9: under the asserted preconditions (the source level is neither off
nor minimal, the target level is not off, and from detail only summary or
minimal are reachable) transition always reports success, and the
call-site table is shut down exactly when the source level is detail. -/
theorem c9_transition_total (f t : NMT_TrackingLevel)
    (h1 : ¬ (f = .off)) (h2 : ¬ (f = .minimal)) (h3 : ¬ (t = .off))
    (h4 : f = .detail → t = .summary ∨ t = .minimal) :
    (transition f t).1 = true ∧ ((transition f t).2 = true ↔ f = .detail) := by
  cases f <;> simp_all [transition]

/-- C10: the low-address guard compares against the constant K, which is
1024; a header whose address is below 1024 is reported as an invalid
block address, and the verdict is the same for any field contents at that
address, so the guard reads no field of a near-null header. -/
theorem c10_low_address_guard (lp64 : Bool) (h h' : MallocHeader)
    (hlow : h.addr < 1024) (hsame : h'.addr = h.addr) :
    K = 1024
    ∧ check_block_integrity lp64 h = some .invalidAddress
    ∧ check_block_integrity lp64 h' = some .invalidAddress := by
  refine ⟨rfl, ?_, ?_⟩ <;> simp [check_block_integrity, K, hlow, hsame]

/-! ### Witnesses -/

/-- C2 witness: the release orchestration evaluated at concrete inputs:
the minimal-level no-op, a failing check on a corrupted header with the
fatal outcome and no collaborator call, and a passing free at detail
level with the full event sequence. -/
theorem c2_release_order_witness :
    (release true .minimal liveHeader = .ok (liveHeader, []))
    ∧ (release true .summary corruptHeader = .error .headerCanaryBroken)
    ∧ (∃ evs, release true .detail liveHeader
          = .ok (mark_block_as_dead true liveHeader, evs)
        ∧ evs.take 2 = [.summaryRecordFree liveHeader.size liveHeader.flags,
                        .summaryRecordFreeMallocHeader sizeofMallocHeader]
        ∧ ((ReleaseEvent.siteDeallocationAt liveHeader.size liveHeader.bucket_idx
              liveHeader.pos_idx ∈ evs) ↔ NMT_TrackingLevel.detail = .detail)
        ∧ evs.getLast? = some .markBlockAsDead) :=
  ⟨(c2_release_order true .minimal liveHeader).1 (by decide),
   ((c2_release_order true .summary corruptHeader).2 (by decide)).1
     .headerCanaryBroken (by decide),
   ((c2_release_order true .detail liveHeader).2 (by decide)).2 (by decide)⟩

/-- C3 witness: the round trip evaluated at the concrete raw block 8 and
the null propagation at raw block 0. -/
theorem c3_roundtrip_witness :
    (record_malloc true 0 1 2 .summary none = none)
    ∧ (∃ h req, record_malloc true 8 1 2 .summary none
          = some (8 + sizeofMallocHeader, h, req)
        ∧ record_free_addr (8 + sizeofMallocHeader) = 8) :=
  ⟨(c3_roundtrip true 0 1 2 .summary none).1 rfl,
   (c3_roundtrip true 8 1 2 .summary none).2 (by decide)⟩

/-- C4 witness: freeing the sample live block and then checking it again
yields the header-canary-broken fatal outcome, and a second release is
that fatal error. -/
theorem c4_double_free_detected_witness :
    check_block_integrity true (mark_block_as_dead true liveHeader)
        = some .headerCanaryBroken
    ∧ release true .summary (mark_block_as_dead true liveHeader)
        = .error .headerCanaryBroken :=
  let r := c4_double_free_detected true .summary liveHeader
    (mark_block_as_dead true liveHeader)
    [.summaryRecordFree liveHeader.size liveHeader.flags,
     .summaryRecordFreeMallocHeader sizeofMallocHeader, .markBlockAsDead]
    (by decide) (by rfl)
  ⟨r.2.2.2.2.2.1, r.2.2.2.2.2.2⟩

/-- C6 witness: a failed registration at detail level on the concrete raw
block 8 still returns the user pointer, with no site reference and the
downgrade request to summary. -/
theorem c6_site_failure_degrades_witness :
    record_malloc_site none = (false, none, some .summary)
    ∧ ∃ h, record_malloc true 8 100 3 .detail none
        = some (8 + sizeofMallocHeader, h, some .summary)
      ∧ h.bucket_idx = 0 ∧ h.pos_idx = 0 :=
  c6_site_failure_degrades true 8 100 3 (by decide)

/-- C7 witness: the invariant evaluated along the concrete sequence
allocate 5, allocate 3, free 5 from the zero counter. -/
theorem c7_peak_invariant_witness :
    (([CounterOp.allocate 5, .allocate 3, .free 5].foldl applyCounterOp
        MemoryCounter.zero).count
      ≤ ([CounterOp.allocate 5, .allocate 3, .free 5].foldl applyCounterOp
        MemoryCounter.zero).peak_count)
    ∧ (([CounterOp.allocate 5, .allocate 3, .free 5].foldl applyCounterOp
        MemoryCounter.zero).size
      ≤ ([CounterOp.allocate 5, .allocate 3, .free 5].foldl applyCounterOp
        MemoryCounter.zero).peak_size) :=
  (c7_peak_invariant MemoryCounter.zero [.allocate 5, .allocate 3, .free 5]
    (by decide) (by decide)).2.2

/-- C8 witness: the adjustment evaluated on the sample snapshot, whose
arena total is 22 and whose chunk category holds 100 malloc bytes. -/
theorem c8_make_adjustment_witness :
    ((make_adjustment sampleSnapshot).malloc chunk_index).malloc.size
        + total_arena sampleSnapshot
        = (sampleSnapshot.malloc chunk_index).malloc.size
    ∧ ((make_adjustment sampleSnapshot).malloc chunk_index).malloc
        = (sampleSnapshot.malloc chunk_index).malloc.record_free
            (total_arena sampleSnapshot)
    ∧ ((make_adjustment sampleSnapshot).malloc chunk_index).arena
        = (sampleSnapshot.malloc chunk_index).arena
    ∧ (make_adjustment sampleSnapshot).tracking_header
        = sampleSnapshot.tracking_header :=
  let r := c8_make_adjustment sampleSnapshot (by decide)
  ⟨r.1, r.2.1, r.2.2.2.1, r.2.2.2.2⟩

/-- C9 witness: the transition from detail to summary evaluated
concretely. -/
theorem c9_transition_total_witness :
    (transition .detail .summary).1 = true
    ∧ ((transition .detail .summary).2 = true
        ↔ NMT_TrackingLevel.detail = .detail) :=
  c9_transition_total .detail .summary (by decide) (by decide) (by decide)
    (fun _ => Or.inl rfl)

/-- C10 witness: two headers at address 1023 with different field contents
both evaluate to the invalid-address fatal outcome. -/
theorem c10_low_address_guard_witness :
    K = 1024
    ∧ check_block_integrity true lowHeaderA = some .invalidAddress
    ∧ check_block_integrity true lowHeaderB = some .invalidAddress :=
  c10_low_address_guard true lowHeaderA lowHeaderB (by decide) (by decide)

end NMT
